/-
Verification of the Mahi-Fashion order pipeline against its specification.

The repository is a small single-store e-commerce flow (Streamlit apps
`Meet_app.py` and `fashion_store_app.py`).  We shallowly embed the pure
cores of its functions — totals computation, size parsing, sales-record
schema reconciliation, checkout validation/persistence, receipt
degradation, email-dispatch preconditions and the chat deep-link
builder — as executable Lean definitions, and prove the specification's
claims about them.  Monetary amounts are modelled as exact rationals
(the Python code uses floats; all claims are about the exact arithmetic
the formulas denote, with display rounding applied only at presentation
time).
-/
import Mathlib

namespace MahiFashion

/-! ## Cart lines and totals (Meet_app.py, tab_cart lines 407–410) -/

/-- A cart line as stored in `st.session_state.cart`:
`{"item": ..., "size": ..., "price": ...}` (price snapshotted at add time). -/
structure CartLine where
  item : String
  size : String
  price : ℚ
  deriving DecidableEq, Repr

/-- The totals block computed in the cart tab. -/
structure Totals where
  subtotal : ℚ
  tax : ℚ
  discount : ℚ
  grand : ℚ
  deriving DecidableEq, Repr

/-- Embedding of the totals computation in `Meet_app.py` (tab_cart):
`subtotal = sum(item['price'] for item in cart)`,
`tax = subtotal * (tax_rate/100)`,
`discount = subtotal * (default_discount/100)`,
`grand = subtotal + tax - discount`. -/
def computeTotals (cart : List CartLine) (taxRate discountRate : ℚ) : Totals :=
  let subtotal : ℚ := (cart.map (fun item => item.price)).sum
  let tax : ℚ := subtotal * (taxRate / 100)
  let discount : ℚ := subtotal * (discountRate / 100)
  { subtotal := subtotal, tax := tax, discount := discount,
    grand := subtotal + tax - discount }

/-- C1: for every cart and every tax and discount rate, the totals
calculator returns subtotal = Σ priceᵢ, tax = subtotal·taxRate/100,
discount = subtotal·discountRate/100 and grand = subtotal + tax − discount,
with no internal rounding (the equations hold exactly in ℚ); and on the
cart `[{item:"Saree", size:"Free", price:1200}]` with taxRate = 5 and
discountRate = 0 it yields subtotal = 1200, tax = 60, discount = 0,
grand = 1260. -/
theorem computeTotals_spec :
    (∀ (cart : List CartLine) (taxRate discountRate : ℚ),
      (computeTotals cart taxRate discountRate).subtotal
          = (cart.map (fun item => item.price)).sum ∧
      (computeTotals cart taxRate discountRate).tax
          = (cart.map (fun item => item.price)).sum * (taxRate / 100) ∧
      (computeTotals cart taxRate discountRate).discount
          = (cart.map (fun item => item.price)).sum * (discountRate / 100) ∧
      (computeTotals cart taxRate discountRate).grand
          = (computeTotals cart taxRate discountRate).subtotal
            + (computeTotals cart taxRate discountRate).tax
            - (computeTotals cart taxRate discountRate).discount) ∧
    computeTotals [⟨"Saree", "Free", 1200⟩] 5 0
        = ⟨1200, 60, 0, 1260⟩ := by
  refine ⟨fun cart taxRate discountRate => ⟨rfl, rfl, rfl, rfl⟩, ?_⟩
  norm_num [computeTotals]

/-! ## Size parsing (Meet_app.py, `parse_sizes`, lines 104–113)

Python strings are modelled as `List Char`; `str.strip()` becomes
`stripChars` (drop whitespace from both ends) and `str.split(sep)`
becomes `pySplitChar` (which, like Python's, keeps empty chunks and
returns `[[]]` on the empty string). -/

/-- Whitespace test used by `str.strip()`. -/
def pySpace (c : Char) : Bool := c.isWhitespace

/-- Left part of `str.strip()`. -/
def lstripChars (l : List Char) : List Char := l.dropWhile pySpace

/-- Right part of `str.strip()`. -/
def rstripChars (l : List Char) : List Char := (l.reverse.dropWhile pySpace).reverse

/-- Embedding of Python's `str.strip()`. -/
def stripChars (l : List Char) : List Char := rstripChars (lstripChars l)

/-- Embedding of Python's `str.split(sep)` for a one-character separator:
splits at every occurrence, keeping empty chunks (`"".split(",") = [""]`,
`"a,,b".split(",") = ["a","","b"]`). -/
def pySplitChar (sep : Char) : List Char → List (List Char)
  | [] => [[]]
  | c :: rest =>
    let r := pySplitChar sep rest
    if c = sep then [] :: r
    else
      match r with
      | [] => [[c]]
      | h :: t => (c :: h) :: t

/-- `[x.strip() for x in s.split(",") if x.strip()]`. -/
def commaParts (s : List Char) : List (List Char) :=
  ((pySplitChar ',' s).map stripChars).filter (fun x => decide (x ≠ []))

/-- `[x.strip() for x in s.split("-") if x.strip()]`. -/
def hyphenParts (s : List Char) : List (List Char) :=
  ((pySplitChar '-' s).map stripChars).filter (fun x => decide (x ≠ []))

/-- Embedding of `parse_sizes` from `Meet_app.py` on character lists:
strip the input; empty → `["Free"]`; containing a comma → comma-split
(trimmed, empties dropped); containing a hyphen → hyphen-split (trimmed,
empties dropped, falling back to the stripped whole if nothing remains);
otherwise the stripped whole as a single token. -/
def parseSizesCore (s_raw : List Char) : List (List Char) :=
  if stripChars s_raw = [] then [['F', 'r', 'e', 'e']]
  else if ',' ∈ stripChars s_raw then commaParts (stripChars s_raw)
  else if '-' ∈ stripChars s_raw then
    if hyphenParts (stripChars s_raw) = [] then [stripChars s_raw]
    else hyphenParts (stripChars s_raw)
  else [stripChars s_raw]

/-- `parse_sizes` on Lean strings. -/
def parse_sizes (s_raw : String) : List String :=
  (parseSizesCore s_raw.data).map String.mk

/-- Embedding of `str.strip()` on Lean strings. -/
def pyStrip (s : String) : String := String.mk (stripChars s.data)

/-! ### Strip lemmas -/

theorem dropWhile_idem (p : Char → Bool) :
    ∀ l : List Char, (l.dropWhile p).dropWhile p = l.dropWhile p
  | [] => rfl
  | a :: t => by
    cases hp : p a with
    | true => simp only [List.dropWhile, hp]; exact dropWhile_idem p t
    | false => simp only [List.dropWhile, hp]

theorem dropWhile_head_not (p : Char → Bool) :
    ∀ (l : List Char) (a : Char) (t : List Char),
      l.dropWhile p = a :: t → p a = false
  | [], a, t, h => by simp [List.dropWhile] at h
  | b :: r, a, t, h => by
    cases hp : p b with
    | true =>
      simp only [List.dropWhile, hp] at h
      exact dropWhile_head_not p r a t h
    | false =>
      simp only [List.dropWhile, hp] at h
      injection h with h1 h2
      rw [← h1]; exact hp

theorem dropWhile_suffix_ex (p : Char → Bool) :
    ∀ l : List Char, ∃ u : List Char, l = u ++ l.dropWhile p
  | [] => ⟨[], rfl⟩
  | a :: t => by
    cases hp : p a with
    | true =>
      obtain ⟨u, hu⟩ := dropWhile_suffix_ex p t
      exact ⟨a :: u, by simp only [List.dropWhile, hp, List.cons_append]; rw [← hu]⟩
    | false => exact ⟨[], by simp only [List.dropWhile, hp, List.nil_append]⟩

theorem rstrip_idem (l : List Char) : rstripChars (rstripChars l) = rstripChars l := by
  unfold rstripChars
  rw [List.reverse_reverse, dropWhile_idem]

/-- `rstripChars` removes only a suffix. -/
theorem rstrip_prefix_ex (l : List Char) : ∃ u : List Char, l = rstripChars l ++ u := by
  obtain ⟨u, hu⟩ := dropWhile_suffix_ex pySpace l.reverse
  refine ⟨u.reverse, ?_⟩
  have := congrArg List.reverse hu
  rw [List.reverse_reverse, List.reverse_append] at this
  exact this

theorem strip_idem (l : List Char) : stripChars (stripChars l) = stripChars l := by
  unfold stripChars
  have hB : lstripChars (rstripChars (lstripChars l)) = rstripChars (lstripChars l) := by
    cases hb : rstripChars (lstripChars l) with
    | nil => simp [lstripChars, List.dropWhile]
    | cons a t =>
      obtain ⟨u, hu⟩ := rstrip_prefix_ex (lstripChars l)
      rw [hb] at hu
      have ha : pySpace a = false := dropWhile_head_not pySpace l a (t ++ u) hu
      simp [lstripChars, List.dropWhile, ha]
  rw [hB, rstrip_idem]

theorem mem_dropWhile_of_not (p : Char → Bool) (x : Char) :
    ∀ l : List Char, x ∈ l → p x = false → x ∈ l.dropWhile p
  | a :: t, hm, hx => by
    cases hp : p a with
    | true =>
      simp only [List.dropWhile, hp]
      rcases List.mem_cons.mp hm with h | h
      · subst h; rw [hx] at hp; exact absurd hp (by simp)
      · exact mem_dropWhile_of_not p x t h hx
    | false => simpa only [List.dropWhile, hp] using hm

theorem mem_strip_of_not (x : Char) (l : List Char)
    (hm : x ∈ l) (hx : pySpace x = false) : x ∈ stripChars l := by
  unfold stripChars rstripChars lstripChars
  rw [List.mem_reverse]
  exact mem_dropWhile_of_not pySpace x _
    (List.mem_reverse.mpr (mem_dropWhile_of_not pySpace x l hm hx)) hx

/-- Every token produced by `parseSizesCore` is strip-fixed. -/
theorem parseSizesCore_trimmed (s : List Char) :
    ∀ t ∈ parseSizesCore s, stripChars t = t := by
  intro t ht
  unfold parseSizesCore at ht
  by_cases h0 : stripChars s = []
  · rw [if_pos h0] at ht
    rcases List.mem_singleton.mp ht with rfl
    decide
  · rw [if_neg h0] at ht
    by_cases hc : ',' ∈ stripChars s
    · rw [if_pos hc] at ht
      obtain ⟨x, -, rfl⟩ := List.mem_map.mp (List.mem_of_mem_filter ht)
      exact strip_idem x
    · rw [if_neg hc] at ht
      by_cases hh : '-' ∈ stripChars s
      · rw [if_pos hh] at ht
        by_cases hp : hyphenParts (stripChars s) = []
        · rw [if_pos hp] at ht
          rcases List.mem_singleton.mp ht with rfl
          exact strip_idem s
        · rw [if_neg hp] at ht
          obtain ⟨x, -, rfl⟩ := List.mem_map.mp (List.mem_of_mem_filter ht)
          exact strip_idem x
      · rw [if_neg hh] at ht
        rcases List.mem_singleton.mp ht with rfl
        exact strip_idem s

/-- C6: `"M,L,XL"` parses to `["M","L","XL"]`, the empty and
whitespace-only strings parse to `["Free"]`, `"L-XL"` parses to
`["L","XL"]`, and every token of every parse is trimmed of surrounding
whitespace (stripping it again changes nothing). -/
theorem parse_sizes_spec :
    parse_sizes "M,L,XL" = ["M", "L", "XL"] ∧
    parse_sizes "" = ["Free"] ∧
    parse_sizes "   " = ["Free"] ∧
    parse_sizes "L-XL" = ["L", "XL"] ∧
    ∀ (s : String) (t : String), t ∈ parse_sizes s → pyStrip t = t := by
  refine ⟨by decide, by decide, by decide, by decide, ?_⟩
  intro s t ht
  obtain ⟨u, hu, rfl⟩ := List.mem_map.mp ht
  unfold pyStrip
  exact congrArg String.mk (parseSizesCore_trimmed s.data u hu)

/-- Witness for C6: the trimming clause applied at a concrete parse. -/
theorem parse_sizes_spec_witness : pyStrip "M" = "M" :=
  parse_sizes_spec.2.2.2.2 "M,L,XL" "M" (by decide)

/-- C10: when the size string contains a comma, the parser splits only on
commas (the comma branch is taken, so hyphens survive inside tokens);
concretely `"S,M-L"` parses to `["S","M-L"]`, not `["S","M","L"]`. -/
theorem parse_sizes_comma_precedence (s : List Char) (h : ',' ∈ s) :
    parseSizesCore s = commaParts (stripChars s) ∧
    parse_sizes "S,M-L" = ["S", "M-L"] := by
  have hmem : ',' ∈ stripChars s := mem_strip_of_not ',' s h (by decide)
  have hne : stripChars s ≠ [] := by
    intro he
    rw [he] at hmem
    exact List.not_mem_nil ',' hmem
  constructor
  · unfold parseSizesCore
    rw [if_neg hne, if_pos hmem]
  · decide

/-- Witness for C10 at the concrete input `"S,M-L"`. -/
theorem parse_sizes_comma_precedence_witness :
    parseSizesCore "S,M-L".data = commaParts (stripChars "S,M-L".data) :=
  (parse_sizes_comma_precedence "S,M-L".data (by decide)).1

/-! ## Sales-record schema reconciliation (Meet_app.py, `save_sale`, lines 166–172)

`save_sale` appends with
`pd.concat([df_old, df_new], ignore_index=True)` followed by
`to_csv(..., index=False)`.  A data frame is modelled as a column list
plus one association list of cells per row; `pd.concat` aligns rows on
column names, the merged column list is the old columns followed by the
new columns not already present, and `to_csv` materialises every row
over the merged columns, rendering cells absent from a row (pandas
`NaN`) as the empty string. -/

/-- A tabular data frame: named columns and per-row cell assignments. -/
structure Df where
  cols : List String
  rows : List (List (String × String))
  deriving DecidableEq, Repr

/-- The value a row shows under a column: its own cell if present,
otherwise the empty string (pandas `NaN` rendered by `to_csv`). -/
def dfCell (row : List (String × String)) (c : String) : String :=
  match row.lookup c with
  | some v => v
  | none => ""

/-- Merged column list of `pd.concat`: old columns, then new columns not
already present, in order. -/
def reconcileCols (oldCols newCols : List String) : List String :=
  oldCols ++ newCols.filter (fun c => decide (c ∉ oldCols))

/-- `pd.concat([df_old, df_new], ignore_index=True)`. -/
def concat_reconcile (dfOld dfNew : Df) : Df :=
  { cols := reconcileCols dfOld.cols dfNew.cols
    rows := dfOld.rows ++ dfNew.rows }

/-- `to_csv(..., index=False)`: one line of cells per row, over the
frame's columns, missing cells as empty strings. -/
def toCsvTable (df : Df) : List (List String) :=
  df.rows.map (fun r => df.cols.map (dfCell r))

/-- C7: appending rows with a divergent column set onto an existing
sales-record file yields a file whose column set is the union of the two
(old columns first, then the new-only ones), whose row count is the
prior row count plus the number of new rows, whose written table is the
prior rows followed by the new rows each materialised over the merged
columns with their own unaltered cell values, and in which any cell
absent from a row is the empty string. -/
theorem save_sale_reconcile_spec (dfOld dfNew : Df) :
    (∀ c : String,
      c ∈ (concat_reconcile dfOld dfNew).cols ↔ c ∈ dfOld.cols ∨ c ∈ dfNew.cols) ∧
    (toCsvTable (concat_reconcile dfOld dfNew)).length
        = dfOld.rows.length + dfNew.rows.length ∧
    toCsvTable (concat_reconcile dfOld dfNew)
        = dfOld.rows.map (fun r => (concat_reconcile dfOld dfNew).cols.map (dfCell r))
          ++ dfNew.rows.map (fun r => (concat_reconcile dfOld dfNew).cols.map (dfCell r)) ∧
    (∀ (r : List (String × String)) (c : String) (v : String),
      r.lookup c = some v → dfCell r c = v) ∧
    (∀ (r : List (String × String)) (c : String),
      r.lookup c = none → dfCell r c = "") := by
  refine ⟨?_, ?_, ?_, ?_, ?_⟩
  · intro c
    simp only [concat_reconcile, reconcileCols, List.mem_append, List.mem_filter,
      decide_eq_true_eq]
    constructor
    · rintro (h | ⟨h, -⟩)
      · exact Or.inl h
      · exact Or.inr h
    · rintro (h | h)
      · exact Or.inl h
      · by_cases ho : c ∈ dfOld.cols
        · exact Or.inl ho
        · exact Or.inr ⟨h, ho⟩
  · simp [toCsvTable, concat_reconcile]
  · simp [toCsvTable, concat_reconcile]
  · intro r c v h
    simp [dfCell, h]
  · intro r c h
    simp [dfCell, h]

/-- Witness for C7: a prior file with columns `A,B` merged with a new
row set carrying columns `B,C`. -/
theorem save_sale_reconcile_spec_witness :
    (("C" : String) ∈ (concat_reconcile ⟨["A", "B"], [[("A", "1"), ("B", "2")]]⟩
        ⟨["B", "C"], [[("B", "3"), ("C", "4")]]⟩).cols ↔
      ("C" : String) ∈ ["A", "B"] ∨ ("C" : String) ∈ ["B", "C"]) ∧
    dfCell [(("A" : String), ("1" : String))] "B" = "" :=
  ⟨(save_sale_reconcile_spec ⟨["A", "B"], [[("A", "1"), ("B", "2")]]⟩
      ⟨["B", "C"], [[("B", "3"), ("C", "4")]]⟩).1 "C",
   (save_sale_reconcile_spec ⟨["A", "B"], [[("A", "1"), ("B", "2")]]⟩
      ⟨["B", "C"], [[("B", "3"), ("C", "4")]]⟩).2.2.2.2 [("A", "1")] "B" (by decide)⟩

/-! ## Order persistence and checkout (Meet_app.py lines 148–172, 361–434;
fashion_store_app.py lines 31–42, 76–111)

Timestamps are inputs (`date`, `time`, `ts`): the Python code reads the
clock, which the embedding passes in explicitly. -/

/-- Customer record collected by the checkout form. -/
structure Customer where
  name : String
  phone : String
  email : String
  addr : String
  deriving DecidableEq, Repr

/-- One row of `sales_records.csv` as built by `save_sale`. -/
structure SaleRow where
  orderId : String
  date : String
  time : String
  item : String
  size : String
  price : ℚ
  customer : String
  phone : String
  subtotal : ℚ
  tax : ℚ
  discount : ℚ
  grand : ℚ
  deriving DecidableEq, Repr

/-- Embedding of the row-building loop of `save_sale` (Meet_app.py):
one appended row **per cart line**, each carrying the order id,
timestamp, the line's item/size/price, the customer, and the full
totals block. -/
def save_sale_rows (order_id : String) (item_rows : List CartLine) (totals : Totals)
    (customer : Customer) (date time : String) : List SaleRow :=
  item_rows.map (fun r =>
    { orderId := order_id, date := date, time := time,
      item := r.item, size := r.size, price := r.price,
      customer := customer.name, phone := customer.phone,
      subtotal := totals.subtotal, tax := totals.tax,
      discount := totals.discount, grand := totals.grand })

/-- Metadata sheet of the invoice workbook (`build_invoice_excel`). -/
structure InvoiceMeta where
  orderId : String
  date : String
  time : String
  customer : String
  phone : String
  email : String
  address : String
  subtotal : ℚ
  tax : ℚ
  discount : ℚ
  grand : ℚ
  deriving DecidableEq, Repr

/-- The two-sheet invoice workbook: an Items sheet (one row per cart
line) and an InvoiceMeta sheet. -/
structure Invoice where
  items : List CartLine
  meta : InvoiceMeta
  deriving DecidableEq, Repr

/-- Embedding of `build_invoice_excel` (Meet_app.py, lines 174–198). -/
def build_invoice_excel (order_id : String) (item_rows : List CartLine) (totals : Totals)
    (customer : Customer) (date time : String) : Invoice :=
  { items := item_rows
    meta := { orderId := order_id, date := date, time := time,
              customer := customer.name, phone := customer.phone,
              email := customer.email, address := customer.addr,
              subtotal := totals.subtotal, tax := totals.tax,
              discount := totals.discount, grand := totals.grand } }

/-- Content of the rendered receipt page (`build_receipt_pdf`): the page
height in millimetres (`(70 + 8*lines + 40)*mm` with at least one item
line), the header fields, one `(title[:28], price)` entry per cart line,
and the totals block. -/
structure Receipt where
  heightMm : ℚ
  orderId : String
  custName : String
  custPhone : String
  custEmail : String
  custAddr : String
  itemLines : List (String × ℚ)
  subtotal : ℚ
  tax : ℚ
  discount : ℚ
  grand : ℚ
  deriving DecidableEq, Repr

/-- `f"{r['item']} ({r['size']})"[:28]`. -/
def receiptTitle (r : CartLine) : String :=
  String.mk ((r.item ++ " (" ++ r.size ++ ")").data.take 28)

/-- Embedding of `build_receipt_pdf` (Meet_app.py, lines 200–266).  The
`reportlab` import is modelled by the `available` flag: when the
optional backend is absent the `ImportError` handler returns `None`
(here `none`) instead of raising; otherwise the drawn page content is
returned. -/
def build_receipt_pdf (available : Bool) (order_id : String) (bill_rows : List CartLine)
    (totals : Totals) (cust : Customer) : Option Receipt :=
  if available then
    some { heightMm := 70 + 8 * (max 1 bill_rows.length : ℕ) + 40
           orderId := order_id
           custName := cust.name, custPhone := cust.phone
           custEmail := cust.email, custAddr := cust.addr
           itemLines := bill_rows.map (fun r => (receiptTitle r, r.price))
           subtotal := totals.subtotal, tax := totals.tax
           discount := totals.discount, grand := totals.grand }
  else none

/-- The `last_checkout` bundle stored by the cart tab on success,
together with the rows appended to the sales record. -/
structure CheckoutBundle where
  order_id : String
  customer : Customer
  totals : Totals
  invoice : Invoice
  pdf_buf : Option Receipt
  savedRows : List SaleRow
  deriving DecidableEq, Repr

/-- Outcome of the cart tab (Meet_app.py, lines 361–434): an empty cart
shows an informational notice and offers no checkout; a submitted form
with missing name or phone shows a validation error; otherwise the
order is persisted, the invoice and (optionally) the receipt are
rendered, and the bundle is stored. -/
inductive TabCartOutcome where
  | emptyCart
  | namePhoneRequired
  | checkedOut (b : CheckoutBundle)
  deriving DecidableEq, Repr

/-- Rows appended to `sales_records.csv` by a cart-tab outcome: only a
completed checkout persists anything. -/
def savedRowsOf : TabCartOutcome → List SaleRow
  | .checkedOut b => b.savedRows
  | _ => []

/-- Whether a cart-tab outcome rendered an invoice document. -/
def renderedInvoice : TabCartOutcome → Bool
  | .checkedOut _ => true
  | _ => false

/-- Embedding of the cart tab of `Meet_app.py`: empty-cart branch
(line 387), totals (lines 407–410), the checkout form's name/phone
validation (line 424), and on success `save_sale`,
`build_invoice_excel` and `build_receipt_pdf` (lines 427–433) with
`order_id = "ORD" + timestamp`. -/
def tab_cart_process (cart : List CartLine) (taxRate discountRate : ℚ)
    (cname cphone cemail caddr : String) (ts date time : String)
    (reportlabAvailable : Bool) : TabCartOutcome :=
  if cart = [] then .emptyCart
  else
    let totals := computeTotals cart taxRate discountRate
    if cname = "" ∨ cphone = "" then .namePhoneRequired
    else
      let order_id := "ORD" ++ ts
      let cust : Customer := ⟨cname, cphone, cemail, caddr⟩
      .checkedOut
        { order_id := order_id
          customer := cust
          totals := totals
          invoice := build_invoice_excel order_id cart totals cust date time
          pdf_buf := build_receipt_pdf reportlabAvailable order_id cart totals cust
          savedRows := save_sale_rows order_id cart totals cust date time }

/-! ### fashion_store_app.py: `save_order` and `checkout` -/

/-- A cart entry of `fashion_store_app.py`: product fields plus the
chosen quantity. -/
structure FItem where
  name : String
  price : ℚ
  image : String
  qty : ℕ
  deriving DecidableEq, Repr

/-- The per-order row written by `save_order`. -/
structure FOrderData where
  name : String
  phone : String
  email : String
  address : String
  total : ℚ
  date : String
  deriving DecidableEq, Repr

/-- Embedding of `save_order` (fashion_store_app.py, lines 31–42): the
single order row is appended once to the daily file and once to the
master file. -/
def save_order (order_data : FOrderData) (daily master : List FOrderData) :
    List FOrderData × List FOrderData :=
  (daily ++ [order_data], master ++ [order_data])

/-- Outcome of `checkout` in `fashion_store_app.py`. -/
inductive FCheckoutResult where
  | emptyCartError
  | fieldsRequiredError
  | placed (order : FOrderData) (invoiceItems : List FItem) (emailBody : String)
  deriving DecidableEq, Repr

/-- `f"{item['image']} {item['name']} x {item['qty']} = ${...}"` joined
with newlines (the itemised email body; the dollar amount itself is
carried separately in the order total). -/
def fItemsSummary (cart : List FItem) : String :=
  String.intercalate "\n"
    (cart.map (fun item => item.image ++ " " ++ item.name ++ " x " ++ toString item.qty))

/-- Embedding of `checkout` (fashion_store_app.py, lines 76–111): an
empty cart errors out before anything else; then all four customer
fields (stripped) must be non-empty; otherwise the total is computed,
the order row is appended to both sales files by `save_order`, the
invoice is created and the confirmation email composed. -/
def fcheckout (cart : List FItem) (rawName rawPhone rawEmail rawAddress : String)
    (date : String) (daily master : List FOrderData) :
    FCheckoutResult × List FOrderData × List FOrderData :=
  if cart = [] then (.emptyCartError, daily, master)
  else
    let name := pyStrip rawName
    let phone := pyStrip rawPhone
    let email := pyStrip rawEmail
    let address := pyStrip rawAddress
    if name = "" ∨ phone = "" ∨ email = "" ∨ address = "" then
      (.fieldsRequiredError, daily, master)
    else
      let total : ℚ := (cart.map (fun item => item.price * (item.qty : ℚ))).sum
      let order_data : FOrderData :=
        { name := name, phone := phone, email := email, address := address,
          total := total, date := date }
      let files := save_order order_data daily master
      (.placed order_data cart (fItemsSummary cart), files.1, files.2)

/-- C2: checking out with an empty cart fails validation and performs no
side effect in either app: `fashion_store_app.checkout` reports the
empty-cart error and leaves both sales files untouched (no order row,
no invoice, no email body), and the Meet_app cart tab shows the
empty-cart notice, persisting no sales rows and rendering no invoice. -/
theorem checkout_empty_cart_spec :
    (∀ (rawName rawPhone rawEmail rawAddress date : String)
       (daily master : List FOrderData),
      fcheckout [] rawName rawPhone rawEmail rawAddress date daily master
        = (.emptyCartError, daily, master)) ∧
    (∀ (taxRate discountRate : ℚ) (cname cphone cemail caddr ts date time : String)
       (avail : Bool),
      tab_cart_process [] taxRate discountRate cname cphone cemail caddr ts date time avail
          = .emptyCart ∧
      savedRowsOf (tab_cart_process [] taxRate discountRate cname cphone cemail caddr
          ts date time avail) = [] ∧
      renderedInvoice (tab_cart_process [] taxRate discountRate cname cphone cemail caddr
          ts date time avail) = false) := by
  exact ⟨fun _ _ _ _ _ _ _ => rfl, fun _ _ _ _ _ _ _ _ _ _ => ⟨rfl, rfl, rfl⟩⟩

/-- C3 counterexample: a successful Meet_app checkout with a two-line
cart appends two rows to the sales record — not exactly one row per
order as the claim states. -/
theorem save_sale_one_row_counterexample :
    (savedRowsOf (tab_cart_process
        [⟨"Kurti", "L", 615⟩, ⟨"Saree", "Free", 1200⟩] 5 0
        "Asha" "9812345678" "" "" "20240101120000" "2024-01-01" "12:00:00"
        true)).length = 2 ∧ (2 : ℕ) ≠ 1 :=
  ⟨rfl, by decide⟩

/-- C3 amended: `save_order` in fashion_store_app appends exactly one
row per order to each sales file (daily and master), while `save_sale`
in Meet_app appends one row per cart line item, so the number of
appended rows equals the cart length. -/
theorem rows_per_order_amended :
    (∀ (o : FOrderData) (daily master : List FOrderData),
      (save_order o daily master).1.length = daily.length + 1 ∧
      (save_order o daily master).2.length = master.length + 1) ∧
    (∀ (order_id : String) (cart : List CartLine) (t : Totals) (c : Customer)
       (d tm : String),
      (save_sale_rows order_id cart t c d tm).length = cart.length) := by
  constructor
  · intro o daily master
    exact ⟨by simp [save_order], by simp [save_order]⟩
  · intro order_id cart t c d tm
    simp [save_sale_rows]

/-- C4: with the optional reportlab backend absent, `build_receipt_pdf`
returns `none` (an explicit "not produced" result, no exception —
the embedding is a total function), for every order input; and a valid
checkout still completes, storing a bundle whose receipt slot is
`none`. -/
theorem build_receipt_pdf_unavailable_spec (order_id : String) (bill_rows : List CartLine)
    (totals : Totals) (cust : Customer) (cart : List CartLine) (taxRate discountRate : ℚ)
    (cname cphone cemail caddr ts date time : String)
    (hcart : cart ≠ []) (hname : cname ≠ "") (hphone : cphone ≠ "") :
    build_receipt_pdf false order_id bill_rows totals cust = none ∧
    ∃ b : CheckoutBundle,
      tab_cart_process cart taxRate discountRate cname cphone cemail caddr ts date time
          false = .checkedOut b ∧
      b.pdf_buf = none := by
  refine ⟨rfl, ?_⟩
  unfold tab_cart_process
  rw [if_neg hcart, if_neg (by rintro (h | h) <;> [exact hname h; exact hphone h])]
  exact ⟨_, rfl, rfl⟩

/-- Witness for C4 at a concrete one-line cart. -/
theorem build_receipt_pdf_unavailable_spec_witness :
    build_receipt_pdf false "ORD1" [] ⟨0, 0, 0, 0⟩ ⟨"", "", "", ""⟩ = none ∧
    ∃ b : CheckoutBundle,
      tab_cart_process [⟨"Saree", "Free", 1200⟩] 5 0 "Asha" "9812345678" "" ""
          "20240101120000" "2024-01-01" "12:00:00" false = .checkedOut b ∧
      b.pdf_buf = none :=
  build_receipt_pdf_unavailable_spec "ORD1" [] ⟨0, 0, 0, 0⟩ ⟨"", "", "", ""⟩
    [⟨"Saree", "Free", 1200⟩] 5 0 "Asha" "9812345678" "" ""
    "20240101120000" "2024-01-01" "12:00:00"
    (by decide) (by decide) (by decide)

/-! ## Email dispatcher (Meet_app.py, `send_email_receipt`, lines 268–293) -/

/-- Python truthiness of an `Optional[str]`: `None` and `""` are falsy. -/
def pyTruthy : Option String → Bool
  | none => false
  | some s => decide (s ≠ "")

/-- Outcome of the SMTP session (`starttls`/`login`/`sendmail`): the
transport either completes or raises, which the `except` block catches.
Passed in as an oracle since the embedding performs no I/O. -/
inductive SmtpOutcome where
  | ok
  | err (msg : String)
  deriving DecidableEq, Repr

/-- Embedding of `send_email_receipt`: returns
`(returnValue, connectionAttempted)`.  An empty recipient or missing
sender credentials return `False` before any connection; otherwise the
`try` block runs the SMTP session and any transport error is caught,
reported via `st.error`, and turned into a `False` return. -/
def send_email_receipt (to_email : Option String) (subject body_text : String)
    (pdf_bytes : List ℕ) (order_id : String) (smtp_server : String) (smtp_port : ℕ)
    (sender_email sender_password : String) (transport : SmtpOutcome) : Bool × Bool :=
  if pyTruthy to_email = false then (false, false)
  else if sender_email = "" ∨ sender_password = "" then (false, false)
  else
    match transport with
    | .ok => (true, true)
    | .err _ => (false, true)

/-- C5: with an empty recipient (None or "") or empty sender
credentials, `send_email_receipt` returns failure without attempting a
connection; otherwise a transport error is caught and reported as a
failure return (never an exception — the embedding is total), and a
clean transport yields success. -/
theorem send_email_receipt_spec (to_email : Option String) (subject body : String)
    (pdf : List ℕ) (oid srv : String) (port : ℕ) (se sp : String) (tr : SmtpOutcome) :
    (pyTruthy to_email = false ∨ se = "" ∨ sp = "" →
      send_email_receipt to_email subject body pdf oid srv port se sp tr
        = (false, false)) ∧
    (pyTruthy to_email = true → se ≠ "" → sp ≠ "" →
      (∀ m : String, tr = .err m →
        send_email_receipt to_email subject body pdf oid srv port se sp tr
          = (false, true)) ∧
      (tr = .ok →
        send_email_receipt to_email subject body pdf oid srv port se sp tr
          = (true, true))) := by
  constructor
  · rintro (h | h | h)
    · simp [send_email_receipt, h]
    · simp [send_email_receipt, h]
    · simp [send_email_receipt, h]
  · intro ht hse hsp
    constructor
    · rintro m rfl
      simp [send_email_receipt, ht, hse, hsp]
    · rintro rfl
      simp [send_email_receipt, ht, hse, hsp]

/-- Witness for C5: an empty recipient returns failure with no
connection attempt even though the transport would have succeeded. -/
theorem send_email_receipt_spec_witness :
    send_email_receipt none "Invoice ORD1" "msg" [] "ORD1" "smtp.gmail.com" 587
        "owner@example.com" "pw" .ok = (false, false) :=
  (send_email_receipt_spec none "Invoice ORD1" "msg" [] "ORD1" "smtp.gmail.com" 587
      "owner@example.com" "pw" .ok).1 (Or.inl rfl)

/-! ## WhatsApp deep link (Meet_app.py, `wa_me_url`, lines 295–299) -/

/-- Uppercase hexadecimal digit. -/
def hexUpper (n : ℕ) : Char :=
  ['0', '1', '2', '3', '4', '5', '6', '7', '8', '9',
   'A', 'B', 'C', 'D', 'E', 'F'].getD n '0'

/-- UTF-8 encoding of one character as a byte list. -/
def utf8Bytes (c : Char) : List ℕ :=
  let n := c.toNat
  if n < 0x80 then [n]
  else if n < 0x800 then [0xC0 + n / 64, 0x80 + n % 64]
  else if n < 0x10000 then
    [0xE0 + n / 4096, 0x80 + n / 64 % 64, 0x80 + n % 64]
  else
    [0xF0 + n / 262144, 0x80 + n / 4096 % 64, 0x80 + n / 64 % 64, 0x80 + n % 64]

/-- The bytes `urllib.parse.quote` leaves unescaped with the default
`safe='/'`: ASCII letters, digits, `_ . - ~` and `/`. -/
def quoteSafeByte (b : ℕ) : Bool :=
  decide ((65 ≤ b ∧ b ≤ 90) ∨ (97 ≤ b ∧ b ≤ 122) ∨ (48 ≤ b ∧ b ≤ 57) ∨
    b = 95 ∨ b = 46 ∨ b = 45 ∨ b = 126 ∨ b = 47)

/-- One byte of `urllib.parse.quote` output. -/
def quoteByte (b : ℕ) : List Char :=
  if quoteSafeByte b then [Char.ofNat b]
  else ['%', hexUpper (b / 16), hexUpper (b % 16)]

/-- Embedding of `urllib.parse.quote(message)` (default safe set). -/
def pyQuote (s : String) : String :=
  String.mk ((s.data.map (fun c => ((utf8Bytes c).map quoteByte).flatten)).flatten)

/-- Embedding of `wa_me_url`: empty result when no phone is given
(`None` or `""`), otherwise
`f"https://wa.me/{digits}?text={urllib.parse.quote(message)}"` with
`digits` the digit characters of the input. -/
def wa_me_url : Option String → String → String
  | none, _ => ""
  | some p, message =>
    if p = "" then ""
    else
      "https://wa.me/" ++ String.mk (p.data.filter (fun ch => ch.isDigit))
        ++ "?text=" ++ pyQuote message

/-- C9: `wa_me_url` returns `""` for a missing (`None`) or empty phone;
for a non-empty phone it returns the deep link embedding exactly the
digit characters of the phone (all non-digits stripped) and the
percent-encoded message; and the embedded phone part consists of digits
only.  It is a plain function of its arguments (no I/O). -/
theorem wa_me_url_spec (p message : String) (hp : p ≠ "") :
    wa_me_url none message = "" ∧
    wa_me_url (some "") message = "" ∧
    wa_me_url (some p) message
      = "https://wa.me/" ++ String.mk (p.data.filter (fun ch => ch.isDigit))
        ++ "?text=" ++ pyQuote message ∧
    (p.data.filter (fun ch => ch.isDigit)).all (fun ch => ch.isDigit) = true := by
  refine ⟨rfl, rfl, ?_, ?_⟩
  · simp only [wa_me_url]
    rw [if_neg hp]
  · rw [List.all_eq_true]
    intro ch hch
    exact (List.mem_filter.mp hch).2

/-- Witness for C9 at the phone `"+91 98123-45678"`. -/
theorem wa_me_url_spec_witness :
    wa_me_url (some "+91 98123-45678") "NEW ORDER"
      = "https://wa.me/" ++ String.mk ("+91 98123-45678".data.filter (fun ch => ch.isDigit))
        ++ "?text=" ++ pyQuote "NEW ORDER" :=
  (wa_me_url_spec "+91 98123-45678" "NEW ORDER" (by decide)).2.2.1

/-! ## Payment-aware checkout (spec §3 Customer, §4.2 step 2, §8 scenarios) -/

/-- Payment methods of the Customer record (spec §3): cash-on-delivery,
UPI/wallet manual transfer, card, net-banking. -/
inductive PaymentMethod where
  | cashOnDelivery
  | manualTransfer
  | card
  | netBanking
  deriving DecidableEq, Repr

/-- Modelled from the spec: the payment-status note of §4.2 step 2 — the
checkout variant carrying payment methods is not among the source files
provided; per the spec the note is "non-empty advisory text when payment
method is the manual-transfer type, signaling that payment must be
confirmed out-of-band before dispatch; empty otherwise". -/
def paymentStatusNote : PaymentMethod → String
  | .manualTransfer => "Payment pending: confirm transfer before dispatch."
  | _ => ""

/-- An order produced by the payment-aware checkout variant. -/
structure PaidOrder where
  order_id : String
  customer : Customer
  method : PaymentMethod
  paymentRef : String
  statusNote : String
  totals : Totals
  items : List CartLine
  deriving DecidableEq, Repr

/-- Modelled from the spec: the payment-aware checkout variant
(`checkout(cart, customer, totals) -> OrderResult | ValidationError`,
spec §4.2) is not among the source files provided.  Per the spec it
validates a non-empty cart and non-empty customer fields, requires a
non-empty payment reference when the payment method is the
manual-transfer type (§8 scenario: "manual-transfer with empty payment
reference → checkout validation fails with a reference-required
error"), and stamps the order with the payment-status note. -/
def checkout_with_payment (cart : List CartLine) (cust : Customer)
    (method : PaymentMethod) (paymentRef : String) (totals : Totals)
    (order_id : String) : Except String PaidOrder :=
  if cart = [] then .error "Cart is empty"
  else if cust.name = "" ∨ cust.phone = "" ∨ cust.email = "" ∨ cust.addr = "" then
    .error "All fields are required"
  else if method = .manualTransfer ∧ paymentRef = "" then
    .error "Payment reference is required"
  else
    .ok { order_id := order_id, customer := cust, method := method,
          paymentRef := paymentRef, statusNote := paymentStatusNote method,
          totals := totals, items := cart }

/-- C8: on an otherwise valid checkout, the manual-transfer method with
an empty payment reference fails with the reference-required error; with
a non-empty reference it succeeds and the order's payment-status note is
non-empty; and every order placed with any other payment method carries
an empty payment-status note. -/
theorem checkout_with_payment_spec (cart : List CartLine) (cust : Customer)
    (totals : Totals) (oid payRef : String)
    (hcart : cart ≠ []) (hn : cust.name ≠ "") (hp : cust.phone ≠ "")
    (he : cust.email ≠ "") (ha : cust.addr ≠ "") :
    checkout_with_payment cart cust .manualTransfer "" totals oid
        = .error "Payment reference is required" ∧
    (payRef ≠ "" →
      ∃ o : PaidOrder,
        checkout_with_payment cart cust .manualTransfer payRef totals oid = .ok o ∧
        o.statusNote ≠ "") ∧
    (∀ (m : PaymentMethod) (o : PaidOrder), m ≠ .manualTransfer →
      checkout_with_payment cart cust m payRef totals oid = .ok o →
      o.statusNote = "") := by
  have hfields : ¬(cust.name = "" ∨ cust.phone = "" ∨ cust.email = "" ∨ cust.addr = "") := by
    rintro (h | h | h | h)
    · exact hn h
    · exact hp h
    · exact he h
    · exact ha h
  refine ⟨?_, ?_, ?_⟩
  · unfold checkout_with_payment
    rw [if_neg hcart, if_neg hfields, if_pos ⟨rfl, rfl⟩]
  · intro href
    refine ⟨{ order_id := oid, customer := cust, method := .manualTransfer,
              paymentRef := payRef,
              statusNote := paymentStatusNote .manualTransfer,
              totals := totals, items := cart }, ?_, ?_⟩
    · unfold checkout_with_payment
      rw [if_neg hcart, if_neg hfields, if_neg (fun h => href h.2)]
    · simp [paymentStatusNote]
  · intro m o hm h
    unfold checkout_with_payment at h
    rw [if_neg hcart, if_neg hfields, if_neg (fun hc => hm hc.1)] at h
    injection h with h
    rw [← h]
    cases m with
    | manualTransfer => exact absurd rfl hm
    | cashOnDelivery => rfl
    | card => rfl
    | netBanking => rfl

/-- Witness for C8 at a concrete valid order. -/
theorem checkout_with_payment_spec_witness :
    checkout_with_payment [⟨"Saree", "Free", 1200⟩]
        ⟨"Asha", "9812345678", "a@example.com", "12 Main St"⟩
        .manualTransfer "" ⟨1200, 60, 0, 1260⟩ "ORD1"
      = .error "Payment reference is required" :=
  (checkout_with_payment_spec [⟨"Saree", "Free", 1200⟩]
      ⟨"Asha", "9812345678", "a@example.com", "12 Main St"⟩
      ⟨1200, 60, 0, 1260⟩ "ORD1" "TXN42"
      (by decide) (by decide) (by decide) (by decide) (by decide)).1

end MahiFashion
